import Mathlib

/-!
Shallow embedding of the xk6-pubsub publish adapter (repository
`gera-cl/xk6-pubsub`).

The repository contains two variant implementations of the same adapter:

* `pubsub.go` — uses the watermill messaging abstraction
  (`googlecloud.Publisher` from watermill-googlecloud); messages are
  `message.Message` values carrying a UUID, metadata and a payload.
* a second file (the native-client variant) — uses the Google Cloud
  Pub/Sub client (`cloud.google.com/go/pubsub`) directly; messages are
  `pubsub.Message` values carrying data bytes and optional attributes,
  with no locally assigned identifier.

Both variants share the same configuration handling: a dynamic
`map[string]interface{}` is decoded by `mapstructure.Decode` into the
struct `publisherConf`, a non-positive `PublishTimeout` is defaulted to 5
seconds, and a non-empty `Credentials` string is turned into a
`WithCredentialsJSON` client option.

The embedding models:
* Go strings as Lean `String`s, with `strBytes` the `[]byte(s)` (UTF-8)
  conversion and `asciiLower` the ASCII case folding used to mirror
  `strings.EqualFold` on the (all-ASCII) struct field names;
* the dynamic configuration map as an association list of `Value`s
  (string, integer, boolean, or some other non-convertible value);
* `mapstructure.Decode` as `decode` (exact key match first, then
  case-insensitive match, unknown keys ignored, type mismatch an error);
* `log.Fatalf` (process termination) as the `FatalOr.fatal` outcome,
  distinct from any value returned to the caller;
* the external client construction (`googlecloud.NewPublisher` /
  `pubsub.NewClientWithConfig`) as a function parameter producing
  `Except`, so both the success and the failure path are covered;
* the external per-call publish operation as a function parameter
  `String → Message → Except String Unit`; `publishMessage` returns the
  caller-visible result together with the trace of client calls it made
  and the diagnostic reports it emitted.
-/

namespace XK6PubSub

/-- ASCII lower-casing of a character, used to model `strings.EqualFold`
on the ASCII struct field names of `publisherConf`. -/
def lowerChar (c : Char) : Char :=
  if 'A' ≤ c ∧ c ≤ 'Z' then Char.ofNat (c.toNat + 32) else c

/-- ASCII lower-casing of a string. -/
def asciiLower (s : String) : String := ⟨s.data.map lowerChar⟩

/-- Go's `[]byte(s)` conversion: the UTF-8 bytes of a string. -/
def strBytes (s : String) : List UInt8 := s.data.flatMap String.utf8EncodeChar

/-- Dynamic configuration value, the relevant fragment of Go's
`interface{}` as it reaches `mapstructure.Decode`: strings, integers,
booleans, and `other` standing for any value of a kind that none of the
`publisherConf` field types accepts (maps, slices, ...). -/
inductive Value where
  | str : String → Value
  | int : Int → Value
  | bool : Bool → Value
  | other : Value
deriving DecidableEq, Repr

/-- The Go `map[string]interface{}` configuration argument, as an
association list. -/
abbrev ConfigMap := List (String × Value)

/-- Case-insensitive key/field-name matching, modelling
`strings.EqualFold` (field names are ASCII, so ASCII folding is exact). -/
def keyMatches (k field : String) : Bool := asciiLower k = asciiLower field

/-- mapstructure's key lookup for a struct field: an exact map-key match
is preferred, otherwise the first case-insensitively matching key. -/
def lookupField (cfg : ConfigMap) (field : String) : Option Value :=
  match cfg.find? (fun kv => kv.1 = field) with
  | some kv => some kv.2
  | none => (cfg.find? (fun kv => keyMatches kv.1 field)).map (fun kv => kv.2)

/-- publisherConf from both source files: the typed configuration record
`mapstructure.Decode` fills in. Field order and names follow the Go
struct. -/
structure publisherConf where
  ProjectID : String
  Credentials : String
  PublishTimeout : Int
  Debug : Bool
  Trace : Bool
  DoNotCreateTopicIfMissing : Bool
deriving DecidableEq, Repr

/-- Decoding of a string-typed struct field: an absent key leaves the
zero value `""`; a present key must hold a string (strict mode of
mapstructure rejects any other kind). -/
def decodeStringField (cfg : ConfigMap) (field : String) : Except String String :=
  match lookupField cfg field with
  | none => .ok ""
  | some (.str s) => .ok s
  | some _ => .error (field ++ ": unconvertible type")

/-- Decoding of an int-typed struct field: an absent key leaves the zero
value `0`; a present key must hold an integer. -/
def decodeIntField (cfg : ConfigMap) (field : String) : Except String Int :=
  match lookupField cfg field with
  | none => .ok 0
  | some (.int n) => .ok n
  | some _ => .error (field ++ ": unconvertible type")

/-- Decoding of a bool-typed struct field: an absent key leaves the zero
value `false`; a present key must hold a boolean. -/
def decodeBoolField (cfg : ConfigMap) (field : String) : Except String Bool :=
  match lookupField cfg field with
  | none => .ok false
  | some (.bool b) => .ok b
  | some _ => .error (field ++ ": unconvertible type")

/-- mapstructure.Decode(config, &publisherConf{}): each field is decoded
from the map by (case-insensitive) field-name lookup; keys matching no
field are ignored; any type mismatch makes the whole decode fail. -/
def decode (cfg : ConfigMap) : Except String publisherConf :=
  match decodeStringField cfg "ProjectID" with
  | .error e => .error e
  | .ok pid =>
  match decodeStringField cfg "Credentials" with
  | .error e => .error e
  | .ok creds =>
  match decodeIntField cfg "PublishTimeout" with
  | .error e => .error e
  | .ok pt =>
  match decodeBoolField cfg "Debug" with
  | .error e => .error e
  | .ok dbg =>
  match decodeBoolField cfg "Trace" with
  | .error e => .error e
  | .ok tr =>
  match decodeBoolField cfg "DoNotCreateTopicIfMissing" with
  | .error e => .error e
  | .ok dnctim =>
    .ok { ProjectID := pid, Credentials := creds, PublishTimeout := pt,
          Debug := dbg, Trace := tr, DoNotCreateTopicIfMissing := dnctim }

/-- Names of the six `publisherConf` fields, the only keys `decode`
consults. -/
def confFieldNames : List String :=
  ["ProjectID", "Credentials", "PublishTimeout", "Debug", "Trace",
   "DoNotCreateTopicIfMissing"]

/-- Whether a configuration key is matched by some `publisherConf`
field (exactly or case-insensitively). -/
def matchesSomeField (k : String) : Bool :=
  confFieldNames.any (fun f => k = f || keyMatches k f)

/-- Timeout defaulting from both Publisher constructors:
`if cnf.PublishTimeout < 1 { cnf.PublishTimeout = 5 }`. -/
def resolveConf (cnf : publisherConf) : publisherConf :=
  if cnf.PublishTimeout < 1 then { cnf with PublishTimeout := 5 } else cnf

/-- Client options passed to the external client constructor; the only
option either variant ever builds is `option.WithCredentialsJSON(bytes)`. -/
inductive ClientOption where
  | WithCredentialsJSON : List UInt8 → ClientOption
deriving DecidableEq, Repr

/-- withCredentials from pubsub.go: a non-empty credentials string (Go's
`len(credentials) > 0` on bytes) yields the single option
`WithCredentialsJSON([]byte(credentials))`; otherwise no option. The
native-client variant inlines the identical logic in its Publisher. -/
def withCredentials (credentials : String) : List ClientOption :=
  if 0 < (strBytes credentials).length then
    [ClientOption.WithCredentialsJSON (strBytes credentials)]
  else
    []

/-- Outcome of a constructor that may call `log.Fatalf`: `fatal` is
process termination (nothing is returned to the caller), `ok` is the
returned handle. -/
inductive FatalOr (α : Type) where
  | fatal : String → FatalOr α
  | ok : α → FatalOr α
deriving DecidableEq, Repr

/-- Opaque stand-in for k6's `*lib.State`; a publish call only checks it
for nil-ness. -/
structure LibState where
deriving DecidableEq, Repr

/-- ReportError emits a diagnostic to k6's error sink.

Modelled from the spec: the function `ReportError` is used by both
variants but its definition is not among the provided source files; per
the spec, diagnostic reporting "is a side channel (e.g., to a logging or
metrics sink) in addition to the returned error — it does not change
control flow", so it is modelled as a pure emission of one
(error, description) report. -/
def ReportError (err description : String) : List (String × String) :=
  [(err, description)]

/-- Result of one publish call at this layer: the error value returned
to the caller (`Except.ok` is Go's `nil`), the trace of calls made to the
underlying client's publish operation (topic and message of each), and
the diagnostic reports emitted via `ReportError`. -/
structure PublishResult (Msg : Type) where
  result : Except String Unit
  calls : List (String × Msg)
  reports : List (String × String)
deriving Repr

namespace Watermill

/-- watermill's message.Message as used here: UUID, metadata (a
string-to-string map) and a byte payload. -/
structure Message where
  UUID : String
  Metadata : List (String × String)
  Payload : List UInt8
deriving DecidableEq, Repr

/-- watermill's message.NewMessage: fresh message with the given UUID and
payload and empty metadata. -/
def NewMessage (uuid : String) (payload : List UInt8) : Message :=
  { UUID := uuid, Metadata := [], Payload := payload }

/-- createMessage from pubsub.go: a Message with the given UUID, metadata
and payload. -/
def createMessage (uuid : String) (payload : List UInt8)
    (metadata : List (String × String)) : Message :=
  { UUID := uuid, Metadata := metadata, Payload := payload }

/-- googlecloud.PublisherConfig as filled in by Publisher (pubsub.go):
project id, publish timeout in seconds (`time.Second * Duration(n)`),
topic-autocreate flag, client options, and the two flags handed to the
watermill std logger. -/
structure PublisherConfig where
  ProjectID : String
  PublishTimeoutSeconds : Int
  DoNotCreateTopicIfMissing : Bool
  ClientOptions : List ClientOption
  LoggerDebug : Bool
  LoggerTrace : Bool
deriving DecidableEq, Repr

/-- Construction of the googlecloud.PublisherConfig from the decoded and
timeout-resolved publisherConf, exactly as Publisher (pubsub.go) does. -/
def mkPublisherConfig (cnf : publisherConf) : PublisherConfig :=
  { ProjectID := cnf.ProjectID,
    PublishTimeoutSeconds := cnf.PublishTimeout,
    DoNotCreateTopicIfMissing := cnf.DoNotCreateTopicIfMissing,
    ClientOptions := withCredentials cnf.Credentials,
    LoggerDebug := cnf.Debug,
    LoggerTrace := cnf.Trace }

/-- Publisher from pubsub.go. `newPublisher` stands for the external
`googlecloud.NewPublisher`: decode failure and construction failure each
hit `log.Fatalf` (process termination, `FatalOr.fatal`); otherwise the
constructed client is returned. -/
def Publisher {Client : Type} (newPublisher : PublisherConfig → Except String Client)
    (config : ConfigMap) : FatalOr Client :=
  match decode config with
  | .error e => .fatal ("xk6-pubsub: unable to read publisher config: " ++ e)
  | .ok cnf =>
    match newPublisher (mkPublisherConfig (resolveConf cnf)) with
    | .error e => .fatal ("xk6-pubsub: unable to init publisher: " ++ e)
    | .ok client => .ok client

/-- publishMessage from pubsub.go: if no k6 state is resolvable the call
reports and returns the state-nil error without touching the client;
otherwise exactly one call `p.Publish(topic, message)` is made and its
error, if any, is reported and returned unchanged. `clientPublish` stands
for the external `p.Publish`. -/
def publishMessage (clientPublish : String → Message → Except String Unit)
    (state : Option LibState) (topic : String) (msg : Message) :
    PublishResult Message :=
  match state with
  | none =>
    let err := "xk6-pubsub: state is nil"
    { result := .error err, calls := [],
      reports := ReportError err "cannot determine state" }
  | some _ =>
    match clientPublish topic msg with
    | .error e =>
      { result := .error e, calls := [(topic, msg)],
        reports := ReportError e "xk6-pubsub: unable to publish message" }
    | .ok _ =>
      { result := .ok (), calls := [(topic, msg)], reports := [] }

/-- Publish from pubsub.go: builds `message.NewMessage(NewShortUUID(),
[]byte(msg))` and delegates to publishMessage. The locally generated
short UUID is the parameter `uuid`. -/
def Publish (clientPublish : String → Message → Except String Unit)
    (state : Option LibState) (uuid topic msg : String) : PublishResult Message :=
  publishMessage clientPublish state topic (NewMessage uuid (strBytes msg))

/-- PublishWithAttributes from pubsub.go: builds
`createMessage(NewShortUUID(), []byte(msg), attributes)` and delegates to
publishMessage. -/
def PublishWithAttributes (clientPublish : String → Message → Except String Unit)
    (state : Option LibState) (uuid topic msg : String)
    (attributes : List (String × String)) : PublishResult Message :=
  publishMessage clientPublish state topic
    (createMessage uuid (strBytes msg) attributes)

end Watermill

namespace Native

/-- pubsub.Message as constructed by the native-client variant: data
bytes and an attributes map whose Go zero value (nil) is `none`. The
struct carries no locally assigned message identifier. -/
structure Message where
  Data : List UInt8
  Attributes : Option (List (String × String))
deriving DecidableEq, Repr

/-- Arguments the native-client Publisher hands to
`pubsub.NewClientWithConfig`: the project id, the per-publish gax timeout
in seconds, and the client options (credentials). -/
structure ClientConfig where
  ProjectID : String
  PublishTimeoutSeconds : Int
  ClientOptions : List ClientOption
deriving DecidableEq, Repr

/-- Construction of the client arguments from the decoded and
timeout-resolved publisherConf, exactly as the native-client Publisher
does (its credentials logic is the same `len > 0` test, inlined). -/
def mkClientConfig (cnf : publisherConf) : ClientConfig :=
  { ProjectID := cnf.ProjectID,
    PublishTimeoutSeconds := cnf.PublishTimeout,
    ClientOptions := withCredentials cnf.Credentials }

/-- Publisher from the native-client variant. `newClient` stands for the
external `pubsub.NewClientWithConfig`: decode failure and construction
failure each hit `log.Fatalf`; otherwise the client is returned. -/
def Publisher {Client : Type} (newClient : ClientConfig → Except String Client)
    (config : ConfigMap) : FatalOr Client :=
  match decode config with
  | .error e => .fatal ("xk6-pubsub: unable to read publisher config: " ++ e)
  | .ok cnf =>
    match newClient (mkClientConfig (resolveConf cnf)) with
    | .error e => .fatal ("xk6-pubsub: unable to init publisher: " ++ e)
    | .ok client => .ok client

/-- publishMessage from the native-client variant: if the k6 VU state is
nil the call reports and returns the state-nil error without touching the
client; otherwise a pubsub.Message is built from the data bytes (plus
`attributes[0]` when the variadic list is non-empty) and exactly one
publish round trip `p.Topic(topic).Publish(ctx, msg); res.Get(ctx)` is
made, modelled by `clientPublish`; its error, if any, is reported and
returned unchanged. -/
def publishMessage (clientPublish : String → Message → Except String Unit)
    (state : Option LibState) (topic : String) (data : List UInt8)
    (attributes : List (List (String × String))) : PublishResult Message :=
  match state with
  | none =>
    let err := "xk6-pubsub: state is nil"
    { result := .error err, calls := [],
      reports := ReportError err "cannot determine state" }
  | some _ =>
    let msg : Message := { Data := data, Attributes := attributes.head? }
    match clientPublish topic msg with
    | .error e =>
      { result := .error e, calls := [(topic, msg)],
        reports := ReportError e "xk6-pubsub: unable to publish message" }
    | .ok _ =>
      { result := .ok (), calls := [(topic, msg)], reports := [] }

/-- Publish from the native-client variant: forwards `[]byte(msg)` and
the VU state with no attributes argument. -/
def Publish (clientPublish : String → Message → Except String Unit)
    (state : Option LibState) (topic msg : String) : PublishResult Message :=
  publishMessage clientPublish state topic (strBytes msg) []

/-- PublishWithAttributes from the native-client variant: forwards
`[]byte(msg)`, the VU state, and the attributes map as the single
variadic argument. -/
def PublishWithAttributes (clientPublish : String → Message → Except String Unit)
    (state : Option LibState) (topic msg : String)
    (attributes : List (String × String)) : PublishResult Message :=
  publishMessage clientPublish state topic (strBytes msg) [attributes]

end Native

/-- View of a native message's attributes under which a nil (absent) map
and an empty map are the same, as they are on the wire. -/
def attrsView : Option (List (String × String)) → List (String × String)
  | none => []
  | some a => a

/-! Helper lemmas shared by the claim theorems. -/

/-- UTF-8 encoding of a character is at least one byte. -/
theorem utf8EncodeChar_ne_nil (c : Char) : String.utf8EncodeChar c ≠ [] := by
  unfold String.utf8EncodeChar
  dsimp only
  split <;> [skip; split] <;> [simp; skip; split] <;> simp

/-- Byte conversion of a string is empty exactly for the empty string. -/
theorem strBytes_eq_nil_iff (s : String) : strBytes s = [] ↔ s = "" := by
  constructor
  · intro h
    cases s with
    | mk data =>
      cases data with
      | nil => rfl
      | cons c cs =>
        exfalso
        simp [strBytes] at h
        exact utf8EncodeChar_ne_nil c h.1
  · intro h
    subst h
    rfl

/-- Go's `len(s) > 0` on the bytes of a string holds exactly for
non-empty strings. -/
theorem strBytes_length_pos_iff (s : String) :
    0 < (strBytes s).length ↔ s ≠ "" := by
  rw [List.length_pos]
  constructor
  · intro h hs
    exact h ((strBytes_eq_nil_iff s).mpr hs)
  · intro h hn
    exact h ((strBytes_eq_nil_iff s).mp hn)

/-- withCredentials on a non-empty credentials string yields exactly the
one credentials-JSON option over the string's bytes. -/
theorem withCredentials_of_ne_empty (s : String) (h : s ≠ "") :
    withCredentials s = [ClientOption.WithCredentialsJSON (strBytes s)] := by
  unfold withCredentials
  rw [if_pos ((strBytes_length_pos_iff s).mpr h)]

/-- withCredentials on the empty credentials string yields no option. -/
theorem withCredentials_empty : withCredentials "" = [] := rfl

/-- Inversion of `decode`: a successful decode determines each field of
the result by its own field lookup, and conversely. -/
theorem decode_ok_iff (cfg : ConfigMap) (cnf : publisherConf) :
    decode cfg = .ok cnf ↔
      decodeStringField cfg "ProjectID" = .ok cnf.ProjectID ∧
      decodeStringField cfg "Credentials" = .ok cnf.Credentials ∧
      decodeIntField cfg "PublishTimeout" = .ok cnf.PublishTimeout ∧
      decodeBoolField cfg "Debug" = .ok cnf.Debug ∧
      decodeBoolField cfg "Trace" = .ok cnf.Trace ∧
      decodeBoolField cfg "DoNotCreateTopicIfMissing" = .ok cnf.DoNotCreateTopicIfMissing := by
  obtain ⟨p1, p2, p3, p4, p5, p6⟩ := cnf
  unfold decode
  cases h1 : decodeStringField cfg "ProjectID" <;>
    cases h2 : decodeStringField cfg "Credentials" <;>
      cases h3 : decodeIntField cfg "PublishTimeout" <;>
        cases h4 : decodeBoolField cfg "Debug" <;>
          cases h5 : decodeBoolField cfg "Trace" <;>
            cases h6 : decodeBoolField cfg "DoNotCreateTopicIfMissing" <;>
              simp [h1, h2, h3, h4, h5, h6, and_assoc]

/-- Integer field decoding of an absent key yields the zero value 0. -/
theorem decodeIntField_of_absent (cfg : ConfigMap) (f : String)
    (h : lookupField cfg f = none) : decodeIntField cfg f = .ok 0 := by
  unfold decodeIntField
  rw [h]

/-- find? is unchanged by filtering with a predicate that keeps every
element the search predicate accepts. -/
theorem find?_filter_of_imp {α : Type} (l : List α) (p q : α → Bool)
    (h : ∀ x, q x = true → p x = true) :
    (l.filter p).find? q = l.find? q := by
  induction l with
  | nil => rfl
  | cons a t ih =>
    by_cases hq : q a = true
    · rw [List.filter_cons_of_pos (h a hq), List.find?_cons_of_pos _ hq,
        List.find?_cons_of_pos _ hq]
    · by_cases hp : p a = true
      · rw [List.filter_cons_of_pos hp, List.find?_cons_of_neg _ hq,
          List.find?_cons_of_neg _ hq, ih]
      · rw [List.filter_cons_of_neg (by simpa using hp),
          List.find?_cons_of_neg _ hq, ih]

/-- Field lookup ignores keys that match no `publisherConf` field:
dropping all such keys leaves every field lookup unchanged. -/
theorem lookupField_filter (cfg : ConfigMap) (f : String)
    (hf : f ∈ confFieldNames) :
    lookupField (cfg.filter (fun kv => matchesSomeField kv.1)) f
      = lookupField cfg f := by
  unfold lookupField
  rw [find?_filter_of_imp, find?_filter_of_imp]
  · intro kv h
    simp only [decide_eq_true_eq] at h
    unfold matchesSomeField
    exact List.any_eq_true.mpr ⟨f, hf, by simp [h]⟩
  · intro kv h
    unfold matchesSomeField
    exact List.any_eq_true.mpr ⟨f, hf, by simp [h]⟩

/-- decode is unchanged by dropping every key that matches no
`publisherConf` field. -/
theorem decode_filter_unknown (cfg : ConfigMap) :
    decode (cfg.filter (fun kv => matchesSomeField kv.1)) = decode cfg := by
  unfold decode decodeStringField decodeIntField decodeBoolField
  rw [lookupField_filter cfg "ProjectID" (by decide),
    lookupField_filter cfg "Credentials" (by decide),
    lookupField_filter cfg "PublishTimeout" (by decide),
    lookupField_filter cfg "Debug" (by decide),
    lookupField_filter cfg "Trace" (by decide),
    lookupField_filter cfg "DoNotCreateTopicIfMissing" (by decide)]

/-- resolveConf only touches the timeout field: credentials unchanged. -/
theorem resolveConf_Credentials (cnf : publisherConf) :
    (resolveConf cnf).Credentials = cnf.Credentials := by
  unfold resolveConf
  split <;> rfl

/-- Trace of client calls of the watermill publishMessage under a
resolvable state: exactly the one submitted (topic, message) pair. -/
theorem watermill_publishMessage_calls_some
    (cw : String → Watermill.Message → Except String Unit) (s : LibState)
    (topic : String) (m : Watermill.Message) :
    (Watermill.publishMessage cw (some s) topic m).calls = [(topic, m)] := by
  unfold Watermill.publishMessage
  cases cw topic m <;> rfl

/-- Caller-visible result of the watermill publishMessage under a
resolvable state: exactly the client's own result. -/
theorem watermill_publishMessage_result_some
    (cw : String → Watermill.Message → Except String Unit) (s : LibState)
    (topic : String) (m : Watermill.Message) :
    (Watermill.publishMessage cw (some s) topic m).result = cw topic m := by
  unfold Watermill.publishMessage
  cases h : cw topic m with
  | error e => rfl
  | ok u => cases u; rfl

/-- Trace of client calls of the native publishMessage under a
resolvable state: exactly one pair, carrying data and `attributes[0]`
(or nil). -/
theorem native_publishMessage_calls_some
    (cn : String → Native.Message → Except String Unit) (s : LibState)
    (topic : String) (data : List UInt8)
    (attributes : List (List (String × String))) :
    (Native.publishMessage cn (some s) topic data attributes).calls
      = [(topic, { Data := data, Attributes := attributes.head? })] := by
  cases h : cn topic { Data := data, Attributes := attributes.head? } <;>
    simp [Native.publishMessage, h]

/-- Caller-visible result of the native publishMessage under a
resolvable state: exactly the client's own result. -/
theorem native_publishMessage_result_some
    (cn : String → Native.Message → Except String Unit) (s : LibState)
    (topic : String) (data : List UInt8)
    (attributes : List (List (String × String))) :
    (Native.publishMessage cn (some s) topic data attributes).result
      = cn topic { Data := data, Attributes := attributes.head? } := by
  cases h : cn topic { Data := data, Attributes := attributes.head? } with
  | error e => simp [Native.publishMessage, h]
  | ok u => cases u; simp [Native.publishMessage, h]

/-! Claim theorems. -/

/-- C1: for every configuration map that decodes successfully, the
resolved publish timeout (the seconds value handed to the external
client constructor, in both variants) equals the decoded value N when N
is positive and 5 when the decoded value is zero or negative; an absent
key decodes to 0 (hence resolves to 5), and a key supplied under the
spec's `publish_timeout` name matches no field, so it is invisible to
the lookup and likewise resolves to 5. -/
theorem publish_timeout_resolution (config : ConfigMap) (cnf : publisherConf)
    (h : decode config = .ok cnf) :
    (∀ n : Int, 1 ≤ n → cnf.PublishTimeout = n →
      (Watermill.mkPublisherConfig (resolveConf cnf)).PublishTimeoutSeconds = n
        ∧ (Native.mkClientConfig (resolveConf cnf)).PublishTimeoutSeconds = n)
  ∧ (cnf.PublishTimeout ≤ 0 →
      (Watermill.mkPublisherConfig (resolveConf cnf)).PublishTimeoutSeconds = 5
        ∧ (Native.mkClientConfig (resolveConf cnf)).PublishTimeoutSeconds = 5)
  ∧ (lookupField config "PublishTimeout" = none → cnf.PublishTimeout = 0)
  ∧ (∀ v : Value, ∀ rest : ConfigMap,
      lookupField (("publish_timeout", v) :: rest) "PublishTimeout"
        = lookupField rest "PublishTimeout") := by
  refine ⟨?_, ?_, ?_, ?_⟩
  · intro n hn hpt
    unfold Watermill.mkPublisherConfig Native.mkClientConfig resolveConf
    rw [if_neg (by omega)]
    exact ⟨hpt, hpt⟩
  · intro hle
    unfold Watermill.mkPublisherConfig Native.mkClientConfig resolveConf
    rw [if_pos (by omega)]
    exact ⟨rfl, rfl⟩
  · intro habs
    have h3 := ((decode_ok_iff config cnf).mp h).2.2.1
    rw [decodeIntField_of_absent config "PublishTimeout" habs] at h3
    exact (Except.ok.injEq _ _).mp h3.symm
  · intro v rest
    unfold lookupField
    rw [List.find?_cons_of_neg _ (by simp),
      List.find?_cons_of_neg _ (by simp [keyMatches]; decide)]

/-- C2: every publish variant of both implementations, called with no
resolvable execution state, returns the context-unavailable error
`"xk6-pubsub: state is nil"`, makes zero calls to the underlying
client, and merely returns (the publish path has no fatal outcome: its
result type carries an error value back to the caller, it never
terminates the process). -/
theorem publish_without_state
    (cw : String → Watermill.Message → Except String Unit)
    (cn : String → Native.Message → Except String Unit)
    (uuid topic msg : String) (attrs : List (String × String)) :
    ((Watermill.Publish cw none uuid topic msg).result
        = .error "xk6-pubsub: state is nil"
      ∧ (Watermill.Publish cw none uuid topic msg).calls = [])
  ∧ ((Watermill.PublishWithAttributes cw none uuid topic msg attrs).result
        = .error "xk6-pubsub: state is nil"
      ∧ (Watermill.PublishWithAttributes cw none uuid topic msg attrs).calls = [])
  ∧ ((Native.Publish cn none topic msg).result
        = .error "xk6-pubsub: state is nil"
      ∧ (Native.Publish cn none topic msg).calls = [])
  ∧ ((Native.PublishWithAttributes cn none topic msg attrs).result
        = .error "xk6-pubsub: state is nil"
      ∧ (Native.PublishWithAttributes cn none topic msg attrs).calls = []) :=
  ⟨⟨rfl, rfl⟩, ⟨rfl, rfl⟩, ⟨rfl, rfl⟩, ⟨rfl, rfl⟩⟩

/-- Witness for C1: a config that only sets `publish_timeout` (the
unmatched snake_case key) resolves to the 5-second default, and a config
setting `PublishTimeout` to 30 resolves to 30 seconds. -/
theorem publish_timeout_resolution_witness :
    (Watermill.mkPublisherConfig
        (resolveConf ⟨"", "", 0, false, false, false⟩)).PublishTimeoutSeconds = 5
  ∧ (Watermill.mkPublisherConfig
        (resolveConf ⟨"p", "", 30, false, false, false⟩)).PublishTimeoutSeconds = 30 := by
  constructor
  · exact ((publish_timeout_resolution [("publish_timeout", Value.int 30)]
      ⟨"", "", 0, false, false, false⟩ rfl).2.1 (by decide)).1
  · exact ((publish_timeout_resolution
      [("ProjectID", Value.str "p"), ("PublishTimeout", Value.int 30)]
      ⟨"p", "", 30, false, false, false⟩ rfl).1 30 (by decide) rfl).1

/-- C3: every publish call of either variant with a resolvable state
makes exactly one call to the underlying client's publish operation
(also when that call fails, so there is no retry), and a client error is
returned to the caller as the identical error value; the diagnostic
report is only an extra `reports` component of the outcome, the returned
`result` is exactly the client's error. -/
theorem publish_single_call_error_passthrough
    (cw : String → Watermill.Message → Except String Unit)
    (cn : String → Native.Message → Except String Unit)
    (s : LibState) (uuid topic msg : String)
    (attrs : List (String × String)) :
    ((Watermill.Publish cw (some s) uuid topic msg).calls.length = 1)
  ∧ (∀ e, cw topic (Watermill.NewMessage uuid (strBytes msg)) = .error e →
      (Watermill.Publish cw (some s) uuid topic msg).result = .error e)
  ∧ ((Watermill.PublishWithAttributes cw (some s) uuid topic msg attrs).calls.length = 1)
  ∧ (∀ e, cw topic (Watermill.createMessage uuid (strBytes msg) attrs) = .error e →
      (Watermill.PublishWithAttributes cw (some s) uuid topic msg attrs).result = .error e)
  ∧ ((Native.Publish cn (some s) topic msg).calls.length = 1)
  ∧ (∀ e, cn topic { Data := strBytes msg, Attributes := none } = .error e →
      (Native.Publish cn (some s) topic msg).result = .error e)
  ∧ ((Native.PublishWithAttributes cn (some s) topic msg attrs).calls.length = 1)
  ∧ (∀ e, cn topic { Data := strBytes msg, Attributes := some attrs } = .error e →
      (Native.PublishWithAttributes cn (some s) topic msg attrs).result = .error e) := by
  refine ⟨?_, ?_, ?_, ?_, ?_, ?_, ?_, ?_⟩
  · rw [Watermill.Publish, watermill_publishMessage_calls_some]
    rfl
  · intro e he
    rw [Watermill.Publish, watermill_publishMessage_result_some]
    exact he
  · rw [Watermill.PublishWithAttributes, watermill_publishMessage_calls_some]
    rfl
  · intro e he
    rw [Watermill.PublishWithAttributes, watermill_publishMessage_result_some]
    exact he
  · rw [Native.Publish, native_publishMessage_calls_some]
    rfl
  · intro e he
    rw [Native.Publish, native_publishMessage_result_some]
    exact he
  · rw [Native.PublishWithAttributes, native_publishMessage_calls_some]
    rfl
  · intro e he
    rw [Native.PublishWithAttributes, native_publishMessage_result_some]
    exact he

/-- Witness for C3: a client that always fails with "boom" is called
exactly once and "boom" is returned unchanged, in both variants. -/
theorem publish_single_call_error_passthrough_witness :
    ((Watermill.PublishWithAttributes (fun _ _ => .error "boom") (some ⟨⟩)
        "id" "topic-a" "hello" [("k", "v")]).calls.length = 1)
  ∧ ((Watermill.PublishWithAttributes (fun _ _ => .error "boom") (some ⟨⟩)
        "id" "topic-a" "hello" [("k", "v")]).result = .error "boom")
  ∧ ((Native.Publish (fun _ _ => .error "boom") (some ⟨⟩)
        "topic-a" "hello").result = .error "boom") := by
  refine ⟨?_, ?_, ?_⟩
  · exact (publish_single_call_error_passthrough (fun _ _ => .error "boom")
      (fun _ _ => .error "boom") ⟨⟩ "id" "topic-a" "hello" [("k", "v")]).2.2.1
  · exact (publish_single_call_error_passthrough (fun _ _ => .error "boom")
      (fun _ _ => .error "boom") ⟨⟩ "id" "topic-a" "hello" [("k", "v")]).2.2.2.1
      "boom" rfl
  · exact (publish_single_call_error_passthrough (fun _ _ => .error "boom")
      (fun _ _ => .error "boom") ⟨⟩ "id" "topic-a" "hello" [("k", "v")]).2.2.2.2.2.1
      "boom" rfl

/-- C4: for every configuration map that decodes successfully, a
non-empty decoded credentials string is passed as exactly one
credentials-JSON option holding that string's bytes (in both variants),
and an empty or absent credentials value yields an empty option list. -/
theorem credentials_option (config : ConfigMap) (cnf : publisherConf)
    (h : decode config = .ok cnf) :
    (cnf.Credentials ≠ "" →
      (Watermill.mkPublisherConfig (resolveConf cnf)).ClientOptions
          = [ClientOption.WithCredentialsJSON (strBytes cnf.Credentials)]
        ∧ (Native.mkClientConfig (resolveConf cnf)).ClientOptions
          = [ClientOption.WithCredentialsJSON (strBytes cnf.Credentials)])
  ∧ (cnf.Credentials = "" →
      (Watermill.mkPublisherConfig (resolveConf cnf)).ClientOptions = []
        ∧ (Native.mkClientConfig (resolveConf cnf)).ClientOptions = [])
  ∧ (lookupField config "Credentials" = none → cnf.Credentials = "") := by
  refine ⟨?_, ?_, ?_⟩
  · intro hne
    unfold Watermill.mkPublisherConfig Native.mkClientConfig
    rw [resolveConf_Credentials, withCredentials_of_ne_empty cnf.Credentials hne]
    exact ⟨rfl, rfl⟩
  · intro he
    unfold Watermill.mkPublisherConfig Native.mkClientConfig
    rw [resolveConf_Credentials, he, withCredentials_empty]
    exact ⟨rfl, rfl⟩
  · intro habs
    have h2 := ((decode_ok_iff config cnf).mp h).2.1
    unfold decodeStringField at h2
    rw [habs] at h2
    exact (Except.ok.injEq _ _).mp h2.symm

/-- Witness for C4: a config carrying the credentials string "cred"
yields exactly the one credentials-JSON option with the bytes of "cred";
a config without credentials yields no option. -/
theorem credentials_option_witness :
    (Watermill.mkPublisherConfig
        (resolveConf ⟨"", "cred", 0, false, false, false⟩)).ClientOptions
      = [ClientOption.WithCredentialsJSON (strBytes "cred")]
  ∧ (Native.mkClientConfig
        (resolveConf ⟨"p", "", 0, false, false, false⟩)).ClientOptions = [] := by
  constructor
  · exact ((credentials_option [("Credentials", Value.str "cred")]
      ⟨"", "cred", 0, false, false, false⟩ rfl).1 (by decide)).1
  · exact ((credentials_option [("ProjectID", Value.str "p")]
      ⟨"p", "", 0, false, false, false⟩ rfl).2.1 rfl).2

/-- C5: for every attributed publish call with a resolvable state, the
one message submitted to the underlying client carries exactly the given
attributes as its metadata/attribute mapping and exactly the UTF-8 bytes
of the msg string as its payload, in both variants (the watermill
message additionally carries the generated uuid). -/
theorem publish_with_attributes_message
    (cw : String → Watermill.Message → Except String Unit)
    (cn : String → Native.Message → Except String Unit)
    (s : LibState) (uuid topic msg : String)
    (attrs : List (String × String)) :
    (Watermill.PublishWithAttributes cw (some s) uuid topic msg attrs).calls
      = [(topic, { UUID := uuid, Metadata := attrs, Payload := strBytes msg })]
  ∧ (Native.PublishWithAttributes cn (some s) topic msg attrs).calls
      = [(topic, { Data := strBytes msg, Attributes := some attrs })] := by
  constructor
  · rw [Watermill.PublishWithAttributes, watermill_publishMessage_calls_some]
    rfl
  · rw [Native.PublishWithAttributes, native_publishMessage_calls_some]
    rfl

/-- C6: in both variants, a configuration decode failure or a failure of
the external client construction makes Publisher terminate the process
(the `FatalOr.fatal` outcome of `log.Fatalf`), and a handle is returned
only when both the decode and the construction succeeded — so on failure
nothing, neither value nor error, is ever returned to the caller. -/
theorem publisher_fatal_on_failure {Client : Type}
    (np : Watermill.PublisherConfig → Except String Client)
    (nc : Native.ClientConfig → Except String Client)
    (config : ConfigMap) :
    (∀ e, decode config = .error e →
      Watermill.Publisher np config
          = .fatal ("xk6-pubsub: unable to read publisher config: " ++ e)
        ∧ Native.Publisher nc config
          = .fatal ("xk6-pubsub: unable to read publisher config: " ++ e))
  ∧ (∀ cnf e, decode config = .ok cnf →
      np (Watermill.mkPublisherConfig (resolveConf cnf)) = .error e →
      Watermill.Publisher np config
        = .fatal ("xk6-pubsub: unable to init publisher: " ++ e))
  ∧ (∀ cnf e, decode config = .ok cnf →
      nc (Native.mkClientConfig (resolveConf cnf)) = .error e →
      Native.Publisher nc config
        = .fatal ("xk6-pubsub: unable to init publisher: " ++ e))
  ∧ (∀ c, Watermill.Publisher np config = .ok c →
      ∃ cnf, decode config = .ok cnf
        ∧ np (Watermill.mkPublisherConfig (resolveConf cnf)) = .ok c)
  ∧ (∀ c, Native.Publisher nc config = .ok c →
      ∃ cnf, decode config = .ok cnf
        ∧ nc (Native.mkClientConfig (resolveConf cnf)) = .ok c) := by
  refine ⟨?_, ?_, ?_, ?_, ?_⟩
  · intro e he
    exact ⟨by simp [Watermill.Publisher, he], by simp [Native.Publisher, he]⟩
  · intro cnf e hd hnp
    simp [Watermill.Publisher, hd, hnp]
  · intro cnf e hd hnc
    simp [Native.Publisher, hd, hnc]
  · intro c hc
    unfold Watermill.Publisher at hc
    cases hd : decode config with
    | error e => simp [hd] at hc
    | ok cnf =>
      rw [hd] at hc
      cases hnp : np (Watermill.mkPublisherConfig (resolveConf cnf)) with
      | error e => simp [hnp] at hc
      | ok c2 =>
        simp [hnp] at hc
        exact ⟨cnf, rfl, by rw [hnp, hc]⟩
  · intro c hc
    unfold Native.Publisher at hc
    cases hd : decode config with
    | error e => simp [hd] at hc
    | ok cnf =>
      rw [hd] at hc
      cases hnc : nc (Native.mkClientConfig (resolveConf cnf)) with
      | error e => simp [hnc] at hc
      | ok c2 =>
        simp [hnc] at hc
        exact ⟨cnf, rfl, by rw [hnc, hc]⟩

/-- Witness for C6: a config whose ProjectID holds an integer fails to
decode and both Publishers go fatal; a well-formed config whose client
construction fails also goes fatal. -/
theorem publisher_fatal_on_failure_witness :
    Watermill.Publisher (fun _ => (.ok () : Except String Unit))
        [("ProjectID", Value.int 1)]
      = .fatal ("xk6-pubsub: unable to read publisher config: "
          ++ "ProjectID: unconvertible type")
  ∧ Native.Publisher (fun _ => (.error "conn refused" : Except String Unit))
        [("ProjectID", Value.str "p")]
      = .fatal ("xk6-pubsub: unable to init publisher: " ++ "conn refused") := by
  constructor
  · exact ((publisher_fatal_on_failure (fun _ => (.ok () : Except String Unit))
      (fun _ => .ok ()) [("ProjectID", Value.int 1)]).1
      "ProjectID: unconvertible type" rfl).1
  · exact (publisher_fatal_on_failure (fun _ => (.ok () : Except String Unit))
      (fun _ => .error "conn refused") [("ProjectID", Value.str "p")]).2.2.1
      ⟨"p", "", 0, false, false, false⟩ "conn refused" rfl rfl

/-- C7: with a resolvable state, each variant submits exactly one
message; the watermill variant's message carries the locally generated
identifier `uuid` (from `watermill.NewShortUUID()`), while the native
variant's message consists of nothing but data bytes and attributes —
the embedded `Native.Message` type has no identifier component, the
message id is left for the service to assign. The two submitted messages
agree on payload bytes and on the attribute mapping (reading the native
nil attribute map as empty), for both the plain and the attributed
publish. -/
theorem variant_identifier_divergence
    (cw : String → Watermill.Message → Except String Unit)
    (cn : String → Native.Message → Except String Unit)
    (s : LibState) (uuid topic msg : String)
    (attrs : List (String × String)) :
    ∃ (mw mwp : Watermill.Message) (mn mnp : Native.Message),
      (Watermill.PublishWithAttributes cw (some s) uuid topic msg attrs).calls
          = [(topic, mw)]
      ∧ (Native.PublishWithAttributes cn (some s) topic msg attrs).calls
          = [(topic, mn)]
      ∧ (Watermill.Publish cw (some s) uuid topic msg).calls = [(topic, mwp)]
      ∧ (Native.Publish cn (some s) topic msg).calls = [(topic, mnp)]
      ∧ mw.UUID = uuid ∧ mwp.UUID = uuid
      ∧ mn = { Data := strBytes msg, Attributes := some attrs }
      ∧ mnp = { Data := strBytes msg, Attributes := none }
      ∧ mw.Payload = mn.Data ∧ mw.Metadata = attrsView mn.Attributes
      ∧ mwp.Payload = mnp.Data ∧ mwp.Metadata = attrsView mnp.Attributes := by
  refine ⟨{ UUID := uuid, Metadata := attrs, Payload := strBytes msg },
    { UUID := uuid, Metadata := [], Payload := strBytes msg },
    { Data := strBytes msg, Attributes := some attrs },
    { Data := strBytes msg, Attributes := none },
    ?_, ?_, ?_, ?_, rfl, rfl, rfl, rfl, rfl, rfl, rfl, rfl⟩
  · rw [Watermill.PublishWithAttributes, watermill_publishMessage_calls_some]
    rfl
  · rw [Native.PublishWithAttributes, native_publishMessage_calls_some]
    rfl
  · rw [Watermill.Publish, watermill_publishMessage_calls_some]
    rfl
  · rw [Native.Publish, native_publishMessage_calls_some]
    rfl

/-- C8: decoding ignores every configuration key that matches no
`publisherConf` field: dropping all such keys never changes the decode
result (so they neither cause a failure nor affect any field), the
spec's snake_case names `project_id`, `do_not_create_topic_if_missing`
and `publish_timeout` are among the unmatched keys, and a map consisting
only of unmatched keys decodes to the all-zero configuration. -/
theorem unknown_keys_ignored :
    (∀ config : ConfigMap,
      decode (config.filter (fun kv => matchesSomeField kv.1)) = decode config)
  ∧ matchesSomeField "project_id" = false
  ∧ matchesSomeField "do_not_create_topic_if_missing" = false
  ∧ matchesSomeField "publish_timeout" = false
  ∧ (∀ junk : ConfigMap, (∀ kv ∈ junk, matchesSomeField kv.1 = false) →
      decode junk = .ok ⟨"", "", 0, false, false, false⟩) := by
  refine ⟨decode_filter_unknown, by decide, by decide, by decide, ?_⟩
  intro junk hjunk
  have hfilter : junk.filter (fun kv => matchesSomeField kv.1) = [] := by
    rw [List.filter_eq_nil_iff]
    intro kv hkv
    simp [hjunk kv hkv]
  have h := decode_filter_unknown junk
  rw [hfilter] at h
  exact h.symm

/-- Witness for C8: a map holding only the spec's snake_case key names
decodes to the all-zero configuration. -/
theorem unknown_keys_ignored_witness :
    decode [("project_id", Value.str "x"),
            ("do_not_create_topic_if_missing", Value.bool true)]
      = .ok ⟨"", "", 0, false, false, false⟩ :=
  unknown_keys_ignored.2.2.2.2
    [("project_id", Value.str "x"),
     ("do_not_create_topic_if_missing", Value.bool true)]
    (by decide)

/-- C9: each publishMessage (and hence each Publish and
PublishWithAttributes wrapper, in both variants) returns Go's `nil`
(`Except.ok ()`) exactly when the state is non-nil and the underlying
client's publish succeeds; in every other case the returned value is
some non-nil error. -/
theorem publish_ok_iff
    (cw : String → Watermill.Message → Except String Unit)
    (cn : String → Native.Message → Except String Unit)
    (state : Option LibState) (uuid topic msg : String)
    (m : Watermill.Message) (data : List UInt8)
    (attributes : List (List (String × String)))
    (attrs : List (String × String)) :
    ((Watermill.publishMessage cw state topic m).result = .ok ()
      ↔ (∃ s, state = some s) ∧ cw topic m = .ok ())
  ∧ ((Native.publishMessage cn state topic data attributes).result = .ok ()
      ↔ (∃ s, state = some s)
          ∧ cn topic { Data := data, Attributes := attributes.head? } = .ok ())
  ∧ ((Watermill.publishMessage cw state topic m).result ≠ .ok () →
      ∃ e, (Watermill.publishMessage cw state topic m).result = .error e)
  ∧ ((Native.publishMessage cn state topic data attributes).result ≠ .ok () →
      ∃ e, (Native.publishMessage cn state topic data attributes).result = .error e)
  ∧ ((Watermill.Publish cw state uuid topic msg).result = .ok ()
      ↔ (∃ s, state = some s)
          ∧ cw topic (Watermill.NewMessage uuid (strBytes msg)) = .ok ())
  ∧ ((Watermill.PublishWithAttributes cw state uuid topic msg attrs).result = .ok ()
      ↔ (∃ s, state = some s)
          ∧ cw topic (Watermill.createMessage uuid (strBytes msg) attrs) = .ok ())
  ∧ ((Native.Publish cn state topic msg).result = .ok ()
      ↔ (∃ s, state = some s)
          ∧ cn topic { Data := strBytes msg, Attributes := none } = .ok ())
  ∧ ((Native.PublishWithAttributes cn state topic msg attrs).result = .ok ()
      ↔ (∃ s, state = some s)
          ∧ cn topic { Data := strBytes msg, Attributes := some attrs } = .ok ()) := by
  have hw : ∀ (m2 : Watermill.Message) (t : String),
      (Watermill.publishMessage cw state t m2).result = .ok ()
        ↔ (∃ s, state = some s) ∧ cw t m2 = .ok () := by
    intro m2 t
    cases state with
    | none =>
      simp only [Watermill.publishMessage]
      constructor
      · intro hcontra
        exact absurd hcontra (by simp)
      · rintro ⟨⟨s, hs⟩, -⟩
        cases hs
    | some s =>
      rw [watermill_publishMessage_result_some cw s t m2]
      constructor
      · intro hok
        exact ⟨⟨s, rfl⟩, hok⟩
      · rintro ⟨-, hok⟩
        exact hok
  have hn : ∀ (d : List UInt8) (al : List (List (String × String))) (t : String),
      (Native.publishMessage cn state t d al).result = .ok ()
        ↔ (∃ s, state = some s)
            ∧ cn t { Data := d, Attributes := al.head? } = .ok () := by
    intro d al t
    cases state with
    | none =>
      simp only [Native.publishMessage]
      constructor
      · intro hcontra
        exact absurd hcontra (by simp)
      · rintro ⟨⟨s, hs⟩, -⟩
        cases hs
    | some s =>
      rw [native_publishMessage_result_some cn s t d al]
      constructor
      · intro hok
        exact ⟨⟨s, rfl⟩, hok⟩
      · rintro ⟨-, hok⟩
        exact hok
  have herr : ∀ r : Except String Unit, r ≠ .ok () → ∃ e, r = .error e := by
    intro r hr
    cases r with
    | error e => exact ⟨e, rfl⟩
    | ok u => cases u; exact absurd rfl hr
  exact ⟨hw m topic, hn data attributes topic,
    herr _, herr _,
    hw (Watermill.NewMessage uuid (strBytes msg)) topic,
    hw (Watermill.createMessage uuid (strBytes msg) attrs) topic,
    hn (strBytes msg) [] topic,
    hn (strBytes msg) [attrs] topic⟩

/-- Witness for C9: with a present state and an always-succeeding
client, Publish returns `nil` in both variants; with an absent state it
returns some error. -/
theorem publish_ok_iff_witness :
    (Watermill.Publish (fun _ _ => .ok ()) (some ⟨⟩) "id" "t" "hello").result = .ok ()
  ∧ ∃ e, (Native.Publish (fun _ _ => .ok ()) none "t" "hello").result = .error e := by
  constructor
  · exact (publish_ok_iff (fun _ _ => .ok ()) (fun _ _ => .ok ()) (some ⟨⟩)
      "id" "t" "hello" ⟨"id", [], []⟩ [] [] []).2.2.2.2.1.mpr ⟨⟨⟨⟩, rfl⟩, rfl⟩
  · exact (publish_ok_iff (fun _ _ => .ok ()) (fun _ _ => .ok ()) none
      "id" "t" "hello" ⟨"id", [], []⟩ [] [] []).2.2.2.1
      (by intro hcontra; simp [Native.Publish, Native.publishMessage] at hcontra)

/-- C10: neither variant inspects the topic argument: with a resolvable
state every topic string, the empty string included, is forwarded
verbatim as the topic of the unique client call, in all four publish
entry points. -/
theorem topic_forwarded_verbatim
    (cw : String → Watermill.Message → Except String Unit)
    (cn : String → Native.Message → Except String Unit)
    (s : LibState) (uuid topic msg : String)
    (attrs : List (String × String)) :
    ((Watermill.Publish cw (some s) uuid topic msg).calls.map Prod.fst = [topic])
  ∧ ((Watermill.PublishWithAttributes cw (some s) uuid topic msg attrs).calls.map
        Prod.fst = [topic])
  ∧ ((Native.Publish cn (some s) topic msg).calls.map Prod.fst = [topic])
  ∧ ((Native.PublishWithAttributes cn (some s) topic msg attrs).calls.map
        Prod.fst = [topic]) := by
  refine ⟨?_, ?_, ?_, ?_⟩
  · rw [Watermill.Publish, watermill_publishMessage_calls_some]
    rfl
  · rw [Watermill.PublishWithAttributes, watermill_publishMessage_calls_some]
    rfl
  · rw [Native.Publish, native_publishMessage_calls_some]
    rfl
  · rw [Native.PublishWithAttributes, native_publishMessage_calls_some]
    rfl

end XK6PubSub
